import Mathlib

/-!
Shallow embedding of the selection-driven semantic retrieval core of this
repository, centred on the `useSemanticSearch` hook (src/unnamed/part_016):
vector math, the semantic ranking pipeline, the result cache, and the
`performSearch` facade with its two async suspension points, plus the
`getRelevantSections` guard from src/frontend/src/context/PDFContext.jsx.
-/

namespace SemanticSearch

/-- Search mode of the retrieval facade (the `searchType` state of
`useSemanticSearch`): `'semantic'` or `'keyword'`. -/
inductive SearchMode
  | semantic
  | keyword
deriving DecidableEq

/-- String form of a `SearchMode`, as interpolated into the cache key
template string of `performSearch`. -/
def SearchMode.str : SearchMode → String
  | .semantic => "semantic"
  | .keyword => "keyword"

/-- Pairwise product-sum of two vectors: models the indexed reduce
`vecA.reduce((sum, val, i) => sum + val * vecB[i], 0)`; `cosineSimilarity`
only consults it when the two lengths are equal, where the indexed reduce
agrees with this pairwise recursion. -/
noncomputable def dotProduct : List ℝ → List ℝ → ℝ
  | a :: as, b :: bs => a * b + dotProduct as bs
  | _, _ => 0

/-- Models `vec.reduce((sum, val) => sum + val * val, 0)`. -/
noncomputable def sumSquares (vec : List ℝ) : ℝ :=
  vec.foldl (fun sum val => sum + val * val) 0

/-- Models `Math.sqrt(vec.reduce((sum, val) => sum + val * val, 0))`,
the `magA`/`magB` values of `cosineSimilarity`. -/
noncomputable def magnitude (vec : List ℝ) : ℝ :=
  Real.sqrt (sumSquares vec)

/-- `cosineSimilarity` from src/unnamed/part_016 lines 15-23.  Returns 0 on
length mismatch (the JS null guard `!vecA || !vecB` cannot arise in a typed
embedding; the empty-array case falls through exactly as in JS, where `[]` is
truthy), otherwise `dotProduct / (magA * magB)` guarded by the JS truthiness
test `magA && magB` (both magnitudes nonzero), else 0.  Total, pure and
deterministic by construction. -/
noncomputable def cosineSimilarity (vecA vecB : List ℝ) : ℝ :=
  if vecA.length ≠ vecB.length then 0
  else if magnitude vecA ≠ 0 ∧ magnitude vecB ≠ 0 then
    dotProduct vecA vecB / (magnitude vecA * magnitude vecB)
  else 0

/-- An indexed corpus section as returned by `GET /api/embeddings`. -/
structure CorpusEntry where
  documentId : String
  sectionId : String
  heading : String
  snippetText : String
  pageNumber : Nat
  embedding : List ℝ

/-- A ranked result: a corpus entry together with its `similarity` score, as
built by the spread `{ ...item, similarity: cosineSimilarity(...) }` in the
semantic branch, or delivered pre-ranked by the backend in keyword mode. -/
structure SearchResult where
  entry : CorpusEntry
  similarity : ℝ

/-- The order realised by the JS comparator `(a, b) => b.similarity - a.similarity`:
`a` sorts no later than `b` iff `b.similarity ≤ a.similarity` (descending by
score). -/
def simGE (a b : SearchResult) : Prop :=
  b.similarity ≤ a.similarity

noncomputable instance : DecidableRel simGE :=
  fun a b => inferInstanceAs (Decidable (b.similarity ≤ a.similarity))

instance : IsTotal SearchResult simGE :=
  ⟨fun a b => le_total b.similarity a.similarity⟩

instance : IsTrans SearchResult simGE :=
  ⟨fun _ _ _ hab hbc => le_trans hbc hab⟩

/-- The `.map` step of the semantic pipeline: attach
`similarity: cosineSimilarity(queryEmbedding, item.embedding)` to every
corpus entry. -/
noncomputable def scoreEntries (queryEmbedding : List ℝ) (corpus : List CorpusEntry) :
    List SearchResult :=
  corpus.map fun item =>
    { entry := item, similarity := cosineSimilarity queryEmbedding item.embedding }

/-- The semantic ranking pipeline of `performSearch` (lines 60-66 of
src/unnamed/part_016): map to scored entries, `.filter(item =>
item.similarity >= threshold)`, `.sort((a, b) => b.similarity - a.similarity)`.
JS `Array.prototype.sort` is stable, and `List.insertionSort simGE` is the
stable descending-by-score sort with exactly the comparator's semantics. -/
noncomputable def rankSemantic (queryEmbedding : List ℝ) (corpus : List CorpusEntry)
    (threshold : ℝ) : List SearchResult :=
  ((scoreEntries queryEmbedding corpus).filter fun item =>
      decide (threshold ≤ item.similarity)).insertionSort simGE

/-- Models JS `String.prototype.trim()`: strip leading and trailing
whitespace.  (Defined by structural recursion over the character list;
`String.trim` itself is defined through well-founded recursion on byte
positions, which the kernel cannot evaluate on concrete inputs.) -/
def jsTrim (s : String) : String :=
  ⟨((s.data.dropWhile Char.isWhitespace).reverse.dropWhile Char.isWhitespace).reverse⟩

/-- Observable state of the `useSemanticSearch` facade: the `results`,
`isLoading`, `error`, `searchType` and `threshold` React state plus the
`cacheRef` map (modelled as an association list in insertion order, which is
exactly a JS `Map` with unique keys). -/
structure SearchState where
  results : List SearchResult
  isLoading : Bool
  error : Option String
  cache : List (String × List SearchResult)
  searchType : SearchMode
  threshold : ℝ

/-- `cacheRef.current.get(key)` / `cacheRef.current.has(key)`: first (unique)
binding of `key`. -/
def cacheGet (cache : List (String × List SearchResult)) (key : String) :
    Option (List SearchResult) :=
  (cache.find? fun p => p.1 == key).map (·.2)

/-- `cacheRef.current.set(key, value)`: overwrite the binding of `key` in
place if present, otherwise append it. -/
def cacheSet (cache : List (String × List SearchResult)) (key : String)
    (value : List SearchResult) : List (String × List SearchResult) :=
  match cache with
  | [] => [(key, value)]
  | p :: rest => if p.1 == key then (key, value) :: rest else p :: cacheSet rest key value

/-- The cache key template `` `${searchType}:${searchQuery}` `` of
`performSearch` — note it contains the mode and the raw query text only. -/
def cacheKey (mode : SearchMode) (searchQuery : String) : String :=
  mode.str ++ ":" ++ searchQuery

/-- Responses of the remote endpoints consumed by `performSearch`:
`POST /api/embed`, `GET /api/embeddings`, `GET /api/search?query=...`.
An `Except.error` models a rejected axios promise carrying the message
that the catch block would extract. -/
structure RemoteEnv where
  embedResp : String → Except String (List ℝ)
  corpusResp : Except String (List CorpusEntry)
  keywordResp : String → Except String (List SearchResult)

/-- One issued remote request (used to count/observe network calls). -/
inductive RemoteCall
  | embed (text : String)
  | corpus
  | keyword (searchQuery : String)
deriving DecidableEq

/-- A suspended `performSearch` invocation, parked at one of its `await`
points, together with the values its closure holds: the cache key, the query
text, and (for the ranking step) the `threshold` captured at invocation
time. -/
inductive Pending
  | semanticEmbed (key searchQuery : String) (threshold : ℝ)
  | semanticCorpus (key : String) (queryEmbedding : List ℝ) (threshold : ℝ)
  | keywordPending (key searchQuery : String)

/-- The error message stored by the catch block:
`err.response?.data?.message || err.message || 'Search failed'`, modelled as
the carried message with the literal fallback when it is empty (falsy). -/
def errorMessage (m : String) : String :=
  if m = "" then "Search failed" else m

/-- Combined effect of the catch and finally blocks of `performSearch`:
`setError(...)` then `setIsLoading(false)`.  `results` and the cache are not
touched. -/
def applyError (m : String) (s : SearchState) : SearchState :=
  { s with error := some (errorMessage m), isLoading := false }

/-- The synchronous prefix of `performSearch(searchQuery)` — everything up to
the first `await` runs atomically on the JS event loop: the falsy-trim guard
(which clears `results` and returns), the cache lookup (which installs the
cached list and returns), and on a miss `setIsLoading(true)`,
`setError(null)` and the dispatch of the first remote request of the
selected mode. -/
def startBlock (searchQuery : String) (s : SearchState) :
    SearchState × Option Pending × List RemoteCall :=
  if jsTrim searchQuery = "" then
    ({ s with results := [] }, none, [])
  else
    match cacheGet s.cache (cacheKey s.searchType searchQuery) with
    | some cached => ({ s with results := cached }, none, [])
    | none =>
      let s1 : SearchState := { s with isLoading := true, error := none }
      match s.searchType with
      | .semantic =>
        (s1, some (.semanticEmbed (cacheKey s.searchType searchQuery) searchQuery s.threshold),
          [RemoteCall.embed searchQuery])
      | .keyword =>
        (s1, some (.keywordPending (cacheKey s.searchType searchQuery) searchQuery),
          [RemoteCall.keyword searchQuery])

/-- Resumption of a suspended `performSearch` invocation when its awaited
response arrives — again one atomic block per `await`: a resolved embedding
dispatches the corpus fetch; a resolved corpus snapshot is ranked, stored in
`results` and the cache, and `isLoading` cleared; a resolved keyword search
is stored verbatim; any rejection runs the catch/finally blocks.  Note there
is no staleness check of any kind: whatever invocation resumes last writes
`results` last. -/
noncomputable def resumeBlock (env : RemoteEnv) (p : Pending) (s : SearchState) :
    SearchState × Option Pending × List RemoteCall :=
  match p with
  | .semanticEmbed key searchQuery threshold =>
    match env.embedResp searchQuery with
    | .ok emb => (s, some (.semanticCorpus key emb threshold), [RemoteCall.corpus])
    | .error m => (applyError m s, none, [])
  | .semanticCorpus key emb threshold =>
    match env.corpusResp with
    | .ok corpus =>
      let ranked := rankSemantic emb corpus threshold
      ({ s with results := ranked, cache := cacheSet s.cache key ranked, isLoading := false },
        none, [])
    | .error m => (applyError m s, none, [])
  | .keywordPending key searchQuery =>
    match env.keywordResp searchQuery with
    | .ok lst =>
      ({ s with results := lst, cache := cacheSet s.cache key lst, isLoading := false },
        none, [])
    | .error m => (applyError m s, none, [])

/-- A complete, uninterleaved run of `performSearch(searchQuery)`: the start
block followed by the (at most two) resumptions, with all issued remote
calls collected in order. -/
noncomputable def performSearch (env : RemoteEnv) (searchQuery : String) (s : SearchState) :
    SearchState × List RemoteCall :=
  match startBlock searchQuery s with
  | (s1, none, c1) => (s1, c1)
  | (s1, some p1, c1) =>
    match resumeBlock env p1 s1 with
    | (s2, none, c2) => (s2, c1 ++ c2)
    | (s2, some p2, c2) =>
      match resumeBlock env p2 s2 with
      | (s3, _, c3) => (s3, c1 ++ c2 ++ c3)

/-- A raw related-section record as returned by
`selectionService.findRelatedContent`, with the optional/alias fields the
transform in `getRelevantSections` falls back across. -/
structure RawRelated where
  section_id : String
  documentId : String
  documentTitle : Option String
  doc_title : Option String
  heading : String
  snippet : Option String
  excerpt : Option String
  preview : String
  similarity : Option ℝ
  similarity_score : Option ℝ
  page_num : Option Nat
  pageNumber : Option Nat
  relevance_type : Option String
  level : Option String

/-- The normalised shape produced by the `results.map(...)` transform of
`getRelevantSections` in src/frontend/src/context/PDFContext.jsx. -/
structure RelatedSection where
  id : String
  documentId : String
  documentTitle : Option String
  heading : String
  snippet : Option String
  preview : String
  similarity : Option ℝ
  pageNumber : Option Nat
  relevanceType : String
  level : String

/-- The per-result transform of `getRelevantSections`, with each JS `||`
fallback modelled on the optional fields. -/
def transformRelated (result : RawRelated) : RelatedSection :=
  { id := result.section_id
    documentId := result.documentId
    documentTitle := result.documentTitle.or result.doc_title
    heading := result.heading
    snippet := result.snippet.or result.excerpt
    preview := result.preview
    similarity := result.similarity.or result.similarity_score
    pageNumber := result.page_num.or result.pageNumber
    relevanceType := result.relevance_type.getD "related"
    level := result.level.getD "section" }

/-- Response of `selectionService.findRelatedContent(docId, text)`. -/
structure SelectionEnv where
  findRelatedContent : String → String → Except String (List RawRelated)

/-- One issued selection-service request. -/
inductive SelectionCall
  | findRelated (documentId text : String)
deriving DecidableEq

/-- `getRelevantSections(selectedText, currentDocId)` from
src/frontend/src/context/PDFContext.jsx lines 96-128: reject falsy or
shorter-than-10 selections with an empty list and no remote call; otherwise
call the selection service and map the results, returning an empty list on
error. -/
def getRelevantSections (env : SelectionEnv) (selectedText : String)
    (currentDocId : String) : List RelatedSection × List SelectionCall :=
  if selectedText = "" ∨ selectedText.length < 10 then ([], [])
  else
    match env.findRelatedContent currentDocId selectedText with
    | .ok results =>
      (results.map transformRelated, [SelectionCall.findRelated currentDocId selectedText])
    | .error _ => ([], [SelectionCall.findRelated currentDocId selectedText])

/-! Concrete fixtures used by witnesses and counterexamples. -/

/-- An environment whose remote calls all succeed (empty corpus). -/
noncomputable def envOk : RemoteEnv :=
  { embedResp := fun _ => .ok [1]
    corpusResp := .ok []
    keywordResp := fun _ => .ok [] }

/-- Fresh facade state in semantic mode: empty results and cache, no error. -/
noncomputable def s0semantic : SearchState :=
  { results := [], isLoading := false, error := none, cache := [],
    searchType := .semantic, threshold := 0 }

/-- Fresh facade state in keyword mode. -/
noncomputable def s0keyword : SearchState :=
  { s0semantic with searchType := .keyword }

/-! Closed-form behaviour of a single uninterleaved `performSearch` run,
one lemma per control path. -/

theorem cacheGet_cacheSet_self (cache : List (String × List SearchResult)) (key : String)
    (value : List SearchResult) : cacheGet (cacheSet cache key value) key = some value := by
  induction cache with
  | nil => simp [cacheSet, cacheGet, List.find?]
  | cons p rest ih =>
    by_cases hp : p.1 == key
    · simp [cacheSet, hp, cacheGet, List.find?]
    · simp only [cacheSet, hp, Bool.false_eq_true, if_false]
      simpa [cacheGet, List.find?, hp] using ih

theorem startBlock_blank {searchQuery : String} (s : SearchState)
    (hq : jsTrim searchQuery = "") :
    startBlock searchQuery s = ({ s with results := [] }, none, []) := by
  unfold startBlock
  rw [if_pos hq]

theorem startBlock_cacheHit {searchQuery : String} (s : SearchState)
    {cached : List SearchResult} (hq : jsTrim searchQuery ≠ "")
    (hc : cacheGet s.cache (cacheKey s.searchType searchQuery) = some cached) :
    startBlock searchQuery s = ({ s with results := cached }, none, []) := by
  unfold startBlock
  rw [if_neg hq, hc]

theorem startBlock_missSemantic {searchQuery : String} {s : SearchState}
    (hq : jsTrim searchQuery ≠ "") (hmode : s.searchType = .semantic)
    (hmiss : cacheGet s.cache (cacheKey s.searchType searchQuery) = none) :
    startBlock searchQuery s =
      ({ s with isLoading := true, error := none },
        some (.semanticEmbed (cacheKey SearchMode.semantic searchQuery) searchQuery s.threshold),
        [RemoteCall.embed searchQuery]) := by
  unfold startBlock
  rw [if_neg hq, hmiss, hmode]

theorem startBlock_missKeyword {searchQuery : String} {s : SearchState}
    (hq : jsTrim searchQuery ≠ "") (hmode : s.searchType = .keyword)
    (hmiss : cacheGet s.cache (cacheKey s.searchType searchQuery) = none) :
    startBlock searchQuery s =
      ({ s with isLoading := true, error := none },
        some (.keywordPending (cacheKey SearchMode.keyword searchQuery) searchQuery),
        [RemoteCall.keyword searchQuery]) := by
  unfold startBlock
  rw [if_neg hq, hmiss, hmode]

theorem performSearch_blank {env : RemoteEnv} {searchQuery : String} {s : SearchState}
    (hq : jsTrim searchQuery = "") :
    performSearch env searchQuery s = ({ s with results := [] }, []) := by
  unfold performSearch
  rw [startBlock_blank s hq]

theorem performSearch_cacheHit {env : RemoteEnv} {searchQuery : String} {s : SearchState}
    {cached : List SearchResult} (hq : jsTrim searchQuery ≠ "")
    (hc : cacheGet s.cache (cacheKey s.searchType searchQuery) = some cached) :
    performSearch env searchQuery s = ({ s with results := cached }, []) := by
  unfold performSearch
  rw [startBlock_cacheHit s hq hc]

theorem performSearch_semanticOk {env : RemoteEnv} {searchQuery : String} {s : SearchState}
    {emb : List ℝ} {corpus : List CorpusEntry}
    (hq : jsTrim searchQuery ≠ "") (hmode : s.searchType = .semantic)
    (hmiss : cacheGet s.cache (cacheKey s.searchType searchQuery) = none)
    (he : env.embedResp searchQuery = .ok emb) (hc : env.corpusResp = .ok corpus) :
    performSearch env searchQuery s =
      ({ s with
          results := rankSemantic emb corpus s.threshold
          cache := cacheSet s.cache (cacheKey SearchMode.semantic searchQuery)
            (rankSemantic emb corpus s.threshold)
          isLoading := false
          error := none },
        [RemoteCall.embed searchQuery, RemoteCall.corpus]) := by
  unfold performSearch
  rw [startBlock_missSemantic hq hmode hmiss]
  simp only [resumeBlock, he, hc, List.cons_append, List.nil_append, List.append_nil]

theorem performSearch_semanticEmbedFail {env : RemoteEnv} {searchQuery : String}
    {s : SearchState} {m : String}
    (hq : jsTrim searchQuery ≠ "") (hmode : s.searchType = .semantic)
    (hmiss : cacheGet s.cache (cacheKey s.searchType searchQuery) = none)
    (he : env.embedResp searchQuery = .error m) :
    performSearch env searchQuery s =
      ({ s with isLoading := false, error := some (errorMessage m) },
        [RemoteCall.embed searchQuery]) := by
  unfold performSearch
  rw [startBlock_missSemantic hq hmode hmiss]
  simp only [resumeBlock, he, applyError, List.append_nil]

theorem performSearch_semanticCorpusFail {env : RemoteEnv} {searchQuery : String}
    {s : SearchState} {emb : List ℝ} {m : String}
    (hq : jsTrim searchQuery ≠ "") (hmode : s.searchType = .semantic)
    (hmiss : cacheGet s.cache (cacheKey s.searchType searchQuery) = none)
    (he : env.embedResp searchQuery = .ok emb) (hc : env.corpusResp = .error m) :
    performSearch env searchQuery s =
      ({ s with isLoading := false, error := some (errorMessage m) },
        [RemoteCall.embed searchQuery, RemoteCall.corpus]) := by
  unfold performSearch
  rw [startBlock_missSemantic hq hmode hmiss]
  simp only [resumeBlock, he, hc, applyError, List.cons_append, List.nil_append,
    List.append_nil]

theorem performSearch_keywordOk {env : RemoteEnv} {searchQuery : String} {s : SearchState}
    {lst : List SearchResult}
    (hq : jsTrim searchQuery ≠ "") (hmode : s.searchType = .keyword)
    (hmiss : cacheGet s.cache (cacheKey s.searchType searchQuery) = none)
    (hr : env.keywordResp searchQuery = .ok lst) :
    performSearch env searchQuery s =
      ({ s with
          results := lst
          cache := cacheSet s.cache (cacheKey SearchMode.keyword searchQuery) lst
          isLoading := false
          error := none },
        [RemoteCall.keyword searchQuery]) := by
  unfold performSearch
  rw [startBlock_missKeyword hq hmode hmiss]
  simp only [resumeBlock, hr, List.append_nil]

theorem performSearch_keywordFail {env : RemoteEnv} {searchQuery : String} {s : SearchState}
    {m : String}
    (hq : jsTrim searchQuery ≠ "") (hmode : s.searchType = .keyword)
    (hmiss : cacheGet s.cache (cacheKey s.searchType searchQuery) = none)
    (hr : env.keywordResp searchQuery = .error m) :
    performSearch env searchQuery s =
      ({ s with isLoading := false, error := some (errorMessage m) },
        [RemoteCall.keyword searchQuery]) := by
  unfold performSearch
  rw [startBlock_missKeyword hq hmode hmiss]
  simp only [resumeBlock, hr, applyError, List.append_nil]

/-!  Claim theorems. -/

/-- C4: `cosineSimilarity` is pure, deterministic and total (it is a total
Lean function), returns 0 whenever either vector is empty (the null case of
the untyped source cannot arise in a typed embedding) or the lengths
mismatch, returns 0 whenever the product of magnitudes is 0, and otherwise
returns `dotProduct / (|a| * |b|)`; being a total function it never
throws. -/
theorem cosineSimilarity_contract (vecA vecB : List ℝ) :
    (vecA = [] → cosineSimilarity vecA vecB = 0)
    ∧ (vecB = [] → cosineSimilarity vecA vecB = 0)
    ∧ (vecA.length ≠ vecB.length → cosineSimilarity vecA vecB = 0)
    ∧ (magnitude vecA * magnitude vecB = 0 → cosineSimilarity vecA vecB = 0)
    ∧ (vecA.length = vecB.length → magnitude vecA * magnitude vecB ≠ 0 →
        cosineSimilarity vecA vecB = dotProduct vecA vecB / (magnitude vecA * magnitude vecB)) := by
  have hmagnil : magnitude ([] : List ℝ) = 0 := by
    simp [magnitude, sumSquares, Real.sqrt_zero]
  have hmis : vecA.length ≠ vecB.length → cosineSimilarity vecA vecB = 0 := by
    intro h
    unfold cosineSimilarity
    rw [if_pos h]
  have hzero : magnitude vecA * magnitude vecB = 0 → cosineSimilarity vecA vecB = 0 := by
    intro h
    unfold cosineSimilarity
    by_cases hlen : vecA.length ≠ vecB.length
    · rw [if_pos hlen]
    · rw [if_neg hlen, if_neg]
      rintro ⟨ha, hb⟩
      rcases mul_eq_zero.mp h with h0 | h0
      · exact ha h0
      · exact hb h0
  have hA : vecA = [] → cosineSimilarity vecA vecB = 0 := by
    intro h
    subst h
    by_cases hb : vecB.length = 0
    · exact hzero (by rw [hmagnil, zero_mul])
    · apply hmis
      simp only [List.length_nil]
      exact fun h0 => hb h0.symm
  have hB : vecB = [] → cosineSimilarity vecA vecB = 0 := by
    intro h
    subst h
    by_cases ha : vecA.length = 0
    · exact hzero (by rw [hmagnil, mul_zero])
    · apply hmis
      simp only [List.length_nil]
      exact ha
  have hok : vecA.length = vecB.length → magnitude vecA * magnitude vecB ≠ 0 →
      cosineSimilarity vecA vecB = dotProduct vecA vecB / (magnitude vecA * magnitude vecB) := by
    intro hlen hne
    have hcond : magnitude vecA ≠ 0 ∧ magnitude vecB ≠ 0 :=
      ⟨fun h0 => hne (by rw [h0, zero_mul]), fun h0 => hne (by rw [h0, mul_zero])⟩
    unfold cosineSimilarity
    rw [if_neg (by simp [hlen]), if_pos hcond]
  exact ⟨hA, hB, hmis, hzero, hok⟩

/-- Witness for C4 at the concrete vectors `[1]`, `[1]`: the magnitudes are
nonzero, so the quotient branch is taken. -/
theorem cosineSimilarity_contract_eval :
    magnitude [(1 : ℝ)] * magnitude [(1 : ℝ)] ≠ 0 ∧
      cosineSimilarity [(1 : ℝ)] [(1 : ℝ)] =
        dotProduct [(1 : ℝ)] [(1 : ℝ)] / (magnitude [(1 : ℝ)] * magnitude [(1 : ℝ)]) := by
  have hmag : magnitude [(1 : ℝ)] = 1 := by
    simp [magnitude, sumSquares, Real.sqrt_one]
  have hne : magnitude [(1 : ℝ)] * magnitude [(1 : ℝ)] ≠ 0 := by
    rw [hmag]
    norm_num
  exact ⟨hne, (cosineSimilarity_contract [(1 : ℝ)] [(1 : ℝ)]).2.2.2.2 rfl hne⟩

/-- C3: the semantic ranking returns exactly the scored entries with
similarity at least `threshold` (as a permutation of and with the same
membership as the filtered scored list, so a score of exactly `threshold` is
kept and anything below is not), in non-increasing score order (`Sorted
simGE`), stably — for every score value the sublist at that score equals the
filtered corpus-order sublist — and an empty corpus yields `[]`. -/
theorem rank_filters_sorts_stably (queryEmbedding : List ℝ) (corpus : List CorpusEntry)
    (threshold : ℝ) :
    ((rankSemantic queryEmbedding corpus threshold).Perm
        ((scoreEntries queryEmbedding corpus).filter fun item =>
          decide (threshold ≤ item.similarity)))
    ∧ (∀ item, item ∈ rankSemantic queryEmbedding corpus threshold ↔
        item ∈ scoreEntries queryEmbedding corpus ∧ threshold ≤ item.similarity)
    ∧ (rankSemantic queryEmbedding corpus threshold).Sorted simGE
    ∧ (∀ sc : ℝ,
        (rankSemantic queryEmbedding corpus threshold).filter
            (fun item => decide (item.similarity = sc)) =
          ((scoreEntries queryEmbedding corpus).filter fun item =>
              decide (threshold ≤ item.similarity)).filter
            fun item => decide (item.similarity = sc))
    ∧ (corpus = [] → rankSemantic queryEmbedding corpus threshold = []) := by
  refine ⟨?_, ?_, ?_, ?_, ?_⟩
  · simpa only [rankSemantic] using
      List.perm_insertionSort simGE
        ((scoreEntries queryEmbedding corpus).filter fun item =>
          decide (threshold ≤ item.similarity))
  · intro item
    simp [rankSemantic, List.mem_insertionSort, List.mem_filter]
  · simpa only [rankSemantic] using
      List.sorted_insertionSort simGE
        ((scoreEntries queryEmbedding corpus).filter fun item =>
          decide (threshold ≤ item.similarity))
  · intro sc
    simp only [rankSemantic]
    set L : List SearchResult := (scoreEntries queryEmbedding corpus).filter fun item =>
      decide (threshold ≤ item.similarity) with hL
    set p : SearchResult → Bool := fun item => decide (item.similarity = sc) with hp
    have hpw : (L.filter p).Pairwise simGE := by
      apply List.pairwise_of_forall_mem_list
      intro a ha b hb
      have ha' := (List.mem_filter.mp ha).2
      have hb' := (List.mem_filter.mp hb).2
      rw [hp] at ha' hb'
      simp only [decide_eq_true_eq] at ha' hb'
      simp [simGE, ha', hb']
    have hid : (L.filter p).filter p = L.filter p :=
      List.filter_eq_self.mpr fun a ha => (List.mem_filter.mp ha).2
    have hsub := List.Sublist.filter p
      (List.sublist_insertionSort hpw (List.filter_sublist L))
    rw [hid] at hsub
    have hperm := (List.perm_insertionSort simGE L).filter p
    exact (hsub.eq_of_length hperm.length_eq.symm).symm
  · intro h
    subst h
    rfl

/-- Witness for C3: the empty-corpus hypothesis discharged at the concrete
input `([], [], 0)` yields the empty result list. -/
theorem rank_filters_sorts_stably_eval : rankSemantic [] [] 0 = [] :=
  (rank_filters_sorts_stably [] [] 0).2.2.2.2 rfl

/-! Fixtures for the facade claims. -/

/-- A concrete corpus entry (document "A"). -/
noncomputable def entryA : CorpusEntry :=
  { documentId := "A", sectionId := "a1", heading := "hA", snippetText := "sA",
    pageNumber := 1, embedding := [] }

/-- A concrete corpus entry (document "B"). -/
noncomputable def entryB : CorpusEntry :=
  { documentId := "B", sectionId := "b1", heading := "hB", snippetText := "sB",
    pageNumber := 2, embedding := [] }

/-- A concrete search result for document "A". -/
noncomputable def resultA : SearchResult := { entry := entryA, similarity := 0 }

/-- A concrete search result for document "B". -/
noncomputable def resultB : SearchResult := { entry := entryB, similarity := 0 }

/-- Environment whose remote calls all fail. -/
noncomputable def envFail : RemoteEnv :=
  { embedResp := fun _ => .error "network down"
    corpusResp := .error "corpus down"
    keywordResp := fun _ => .error "search down" }

/-- Environment returning a fixed pre-ranked keyword result list. -/
noncomputable def envKeyword : RemoteEnv :=
  { embedResp := fun _ => .ok [1]
    corpusResp := .ok []
    keywordResp := fun _ => .ok [resultB, resultA] }

/-- Selection-service environment that always succeeds with no results. -/
def selOk : SelectionEnv := { findRelatedContent := fun _ _ => .ok [] }

/-- The first query of the race scenario. -/
def qAlpha : String := "alpha alpha query"

/-- The second (superseding) query of the race scenario. -/
def qBeta : String := "beta beta query"

/-- Keyword environment answering `qAlpha` with document "A" and any other
query with document "B". -/
noncomputable def envRace : RemoteEnv :=
  { embedResp := fun _ => .ok [1]
    corpusResp := .ok []
    keywordResp := fun searchQuery =>
      if searchQuery = qAlpha then .ok [resultA] else .ok [resultB] }

/-- Race scenario, step 1: `search(qAlpha)` runs its synchronous prefix and
suspends awaiting the keyword response. -/
noncomputable def raceS1 : SearchState := (startBlock qAlpha s0keyword).1

/-- Race scenario, step 2: before that response arrives, `search(qBeta)` runs
its synchronous prefix and suspends as well. -/
noncomputable def raceS2 : SearchState := (startBlock qBeta raceS1).1

/-- Race scenario, step 3: `qBeta`'s response arrives first and is applied. -/
noncomputable def raceS3 : SearchState :=
  (resumeBlock envRace (.keywordPending (cacheKey .keyword qBeta) qBeta) raceS2).1

/-- Race scenario, step 4: `qAlpha`'s stale response arrives last and is
applied on top. -/
noncomputable def raceS4 : SearchState :=
  (resumeBlock envRace (.keywordPending (cacheKey .keyword qAlpha) qAlpha) raceS3).1

/-- The repeated query of the threshold-change scenario. -/
def qRepeat : String := "neural network basics"

/-- First full run of `search(qRepeat)` in semantic mode at threshold 0. -/
noncomputable def c2run1 : SearchState × List RemoteCall :=
  performSearch envOk qRepeat s0semantic

/-- Facade state after `setThreshold(1)` following that first run. -/
noncomputable def c2after : SearchState := { c2run1.1 with threshold := 1 }

/-- State holding a cached entry for `qAlpha` along with a stale error. -/
noncomputable def sHit : SearchState :=
  { results := [], isLoading := false, error := some "old failure",
    cache := [(cacheKey .semantic qAlpha, [resultA])],
    searchType := .semantic, threshold := 0 }

/-- State holding the last successful result list with an empty cache. -/
noncomputable def sLastGood : SearchState :=
  { results := [resultA], isLoading := false, error := none, cache := [],
    searchType := .semantic, threshold := 0 }

/-- C1 (refuting evaluation): the code applies responses in arrival order,
not selection order.  `search(qAlpha)` and then `search(qBeta)` are both
in flight; `qBeta`'s response arrives first and `results` shows document
"B", but when `qAlpha`'s superseded response arrives last it is NOT dropped:
it overwrites `results` with document "A".  `performSearch` has no
generation counter or signature check at its resumption points. -/
theorem stale_response_not_suppressed :
    (startBlock qAlpha s0keyword).2.1 =
        some (.keywordPending (cacheKey .keyword qAlpha) qAlpha)
    ∧ (startBlock qBeta raceS1).2.1 =
        some (.keywordPending (cacheKey .keyword qBeta) qBeta)
    ∧ envRace.keywordResp qBeta = .ok [resultB]
    ∧ raceS3.results.map (fun r => r.entry.documentId) = ["B"]
    ∧ envRace.keywordResp qAlpha = .ok [resultA]
    ∧ raceS4.results.map (fun r => r.entry.documentId) = ["A"]
    ∧ resultB.entry.documentId = "B" :=
  ⟨rfl, rfl, rfl, rfl, rfl, rfl, rfl⟩

/-- C2 (refuting evaluation): the cache key is `` `${searchType}:${query}` ``
with no threshold component, so after `setThreshold` changes the threshold
(from 0 to 1 here), repeating the same raw query is a cache HIT: the second
run issues zero remote calls and returns the list computed and cached under
the previous threshold, not a recomputation. -/
theorem threshold_change_cache_hit :
    (performSearch envOk qRepeat s0semantic).2 = [RemoteCall.embed qRepeat, RemoteCall.corpus]
    ∧ c2after.threshold ≠ s0semantic.threshold
    ∧ (performSearch envOk qRepeat c2after).2 = []
    ∧ (performSearch envOk qRepeat c2after).1.results = c2run1.1.results := by
  refine ⟨rfl, ?_, rfl, rfl⟩
  show (1 : ℝ) ≠ 0
  norm_num

/-- C5 counterexample: the facade search has no minimum-length guard — the
two-character query "hi" is not whitespace-only, so `performSearch` issues
the embedding and corpus remote calls instead of rejecting it. -/
theorem short_query_hits_network :
    "hi".length < 10
    ∧ (performSearch envOk "hi" s0semantic).2 = [RemoteCall.embed "hi", RemoteCall.corpus] :=
  ⟨by decide, rfl⟩

/-- C5 (amended): the facade search rejects exactly the queries that are
empty after trimming (empty results, no remote call); the ten-character
minimum-selection guard lives in the selection path `getRelevantSections`,
which returns an empty list and performs no remote call for shorter text. -/
theorem length_guards (env : RemoteEnv) (sel : SelectionEnv) (searchQuery : String)
    (s : SearchState) (text docId : String) :
    (jsTrim searchQuery = "" → performSearch env searchQuery s = ({ s with results := [] }, []))
    ∧ (text.length < 10 → getRelevantSections sel text docId = ([], [])) := by
  constructor
  · exact fun hq => performSearch_blank hq
  · intro h
    unfold getRelevantSections
    rw [if_pos (Or.inr h)]

/-- Witness for C5's amended claim: a whitespace-only facade query and the
nine-character selection "hi there!". -/
theorem length_guards_eval :
    performSearch envOk "   " s0semantic = ({ s0semantic with results := [] }, [])
    ∧ getRelevantSections selOk "hi there!" "doc1" = ([], []) :=
  ⟨(length_guards envOk selOk "   " s0semantic "hi there!" "doc1").1 (by decide),
    (length_guards envOk selOk "   " s0semantic "hi there!" "doc1").2 (by decide)⟩

/-- C6: whenever the embedding, corpus, or keyword remote call fails on a
cache miss, the facade stores the extracted message in `error` and leaves
`results` exactly as it was — the last successful list is never cleared on
error. -/
theorem error_preserves_results (env : RemoteEnv) (searchQuery : String) (s : SearchState)
    (m : String) (emb : List ℝ)
    (hq : jsTrim searchQuery ≠ "")
    (hmiss : cacheGet s.cache (cacheKey s.searchType searchQuery) = none) :
    (s.searchType = .semantic → env.embedResp searchQuery = .error m →
      (performSearch env searchQuery s).1.results = s.results
      ∧ (performSearch env searchQuery s).1.error = some (errorMessage m))
    ∧ (s.searchType = .semantic → env.embedResp searchQuery = .ok emb →
        env.corpusResp = .error m →
      (performSearch env searchQuery s).1.results = s.results
      ∧ (performSearch env searchQuery s).1.error = some (errorMessage m))
    ∧ (s.searchType = .keyword → env.keywordResp searchQuery = .error m →
      (performSearch env searchQuery s).1.results = s.results
      ∧ (performSearch env searchQuery s).1.error = some (errorMessage m)) := by
  refine ⟨fun hmode he => ?_, fun hmode he hc => ?_, fun hmode hr => ?_⟩
  · rw [performSearch_semanticEmbedFail hq hmode hmiss he]
    exact ⟨rfl, rfl⟩
  · rw [performSearch_semanticCorpusFail hq hmode hmiss he hc]
    exact ⟨rfl, rfl⟩
  · rw [performSearch_keywordFail hq hmode hmiss hr]
    exact ⟨rfl, rfl⟩

/-- Witness for C6: a failing embedding call against a state holding one
previous result leaves that result in place and surfaces the message. -/
theorem error_preserves_results_eval :
    (performSearch envFail qAlpha sLastGood).1.results = sLastGood.results
    ∧ (performSearch envFail qAlpha sLastGood).1.error = some (errorMessage "network down") :=
  (error_preserves_results envFail qAlpha sLastGood "network down" []
    (by decide) rfl).1 rfl rfl

/-- C7 counterexample: duplicate concurrent searches for identical text are
NOT coalesced — when `search(qAlpha)` is invoked twice before either
response arrives, each synchronous prefix misses the still-empty cache and
issues its own remote embedding request, so two (not one) embedding calls
go out.  `generateQueryEmbedding` keeps no in-flight request table. -/
theorem concurrent_embeds_not_coalesced :
    (startBlock qAlpha s0semantic).2.2 = [RemoteCall.embed qAlpha]
    ∧ (startBlock qAlpha (startBlock qAlpha s0semantic).1).2.2 = [RemoteCall.embed qAlpha] :=
  ⟨rfl, rfl⟩

/-- C7 (amended): a sequential repetition — `search(x)` run to completion,
then `search(x)` again with unchanged mode and threshold — issues exactly
one remote embedding call: the first run issues the embed and corpus calls
and caches its ranking, the second run is a pure cache hit issuing no remote
call and returning the same results.  Duplicate CONCURRENT requests are not
coalesced (see the counterexample). -/
theorem repeat_search_single_embed (env : RemoteEnv) (searchQuery : String) (s : SearchState)
    (emb : List ℝ) (corpus : List CorpusEntry)
    (hq : jsTrim searchQuery ≠ "") (hmode : s.searchType = .semantic)
    (hmiss : cacheGet s.cache (cacheKey s.searchType searchQuery) = none)
    (he : env.embedResp searchQuery = .ok emb) (hc : env.corpusResp = .ok corpus) :
    (performSearch env searchQuery s).2 = [RemoteCall.embed searchQuery, RemoteCall.corpus]
    ∧ (performSearch env searchQuery (performSearch env searchQuery s).1).2 = []
    ∧ (performSearch env searchQuery (performSearch env searchQuery s).1).1.results =
        (performSearch env searchQuery s).1.results := by
  rw [performSearch_semanticOk hq hmode hmiss he hc]
  have hc3 : cacheGet (cacheSet s.cache (cacheKey SearchMode.semantic searchQuery)
      (rankSemantic emb corpus s.threshold)) (cacheKey s.searchType searchQuery) =
      some (rankSemantic emb corpus s.threshold) := by
    rw [hmode]
    exact cacheGet_cacheSet_self _ _ _
  rw [performSearch_cacheHit hq hc3]
  exact ⟨rfl, rfl, rfl⟩

/-- Witness for C7's amended claim at a concrete run: one embedding call in
total across the two sequential identical searches. -/
theorem repeat_search_single_embed_eval :
    (performSearch envOk qAlpha s0semantic).2 = [RemoteCall.embed qAlpha, RemoteCall.corpus]
    ∧ (performSearch envOk qAlpha (performSearch envOk qAlpha s0semantic).1).2 = []
    ∧ (performSearch envOk qAlpha (performSearch envOk qAlpha s0semantic).1).1.results =
        (performSearch envOk qAlpha s0semantic).1.results :=
  repeat_search_single_embed envOk qAlpha s0semantic [1] [] (by decide) rfl rfl rfl rfl

/-- C8: in keyword mode the backend's list is stored verbatim — `results`
equals the response exactly (no scoring, filtering or re-sorting), and the
only remote call is the keyword request. -/
theorem keyword_results_passthrough (env : RemoteEnv) (searchQuery : String) (s : SearchState)
    (lst : List SearchResult)
    (hq : jsTrim searchQuery ≠ "") (hmode : s.searchType = .keyword)
    (hmiss : cacheGet s.cache (cacheKey s.searchType searchQuery) = none)
    (hr : env.keywordResp searchQuery = .ok lst) :
    (performSearch env searchQuery s).1.results = lst
    ∧ (performSearch env searchQuery s).2 = [RemoteCall.keyword searchQuery] := by
  rw [performSearch_keywordOk hq hmode hmiss hr]
  exact ⟨rfl, rfl⟩

/-- Witness for C8: a backend list in "B", "A" order is returned in exactly
that order. -/
theorem keyword_results_passthrough_eval :
    (performSearch envKeyword qBeta s0keyword).1.results = [resultB, resultA]
    ∧ (performSearch envKeyword qBeta s0keyword).2 = [RemoteCall.keyword qBeta] :=
  keyword_results_passthrough envKeyword qBeta s0keyword [resultB, resultA]
    (by decide) rfl rfl rfl

/-- C9: a cache hit only rewrites `results` — the whole run is the single
synchronous block that installs the cached list, issues no remote call,
leaves `isLoading` untouched (in particular it is never set to true) and
leaves any pre-existing `error` value in place (error is reset only on the
miss path). -/
theorem cache_hit_only_results (env : RemoteEnv) (searchQuery : String) (s : SearchState)
    (cached : List SearchResult)
    (hq : jsTrim searchQuery ≠ "")
    (hc : cacheGet s.cache (cacheKey s.searchType searchQuery) = some cached) :
    performSearch env searchQuery s = ({ s with results := cached }, [])
    ∧ (performSearch env searchQuery s).1.isLoading = s.isLoading
    ∧ (performSearch env searchQuery s).1.error = s.error := by
  rw [performSearch_cacheHit hq hc]
  exact ⟨rfl, rfl, rfl⟩

/-- Witness for C9: a hit against `sHit`, whose `error` is a stale
`some "old failure"`, returns the cached list and keeps that error. -/
theorem cache_hit_only_results_eval :
    performSearch envOk qAlpha sHit = ({ sHit with results := [resultA] }, [])
    ∧ (performSearch envOk qAlpha sHit).1.isLoading = sHit.isLoading
    ∧ (performSearch envOk qAlpha sHit).1.error = sHit.error :=
  cache_hit_only_results envOk qAlpha sHit [resultA] (by decide) rfl

/-- C10: a failed search stores nothing — on any rejecting remote call the
cache is left unchanged, and an immediately repeated identical search misses
again and re-issues exactly the same (non-empty) remote call sequence
instead of serving a cached failure. -/
theorem failed_search_not_cached (env : RemoteEnv) (searchQuery : String) (s : SearchState)
    (m : String) (emb : List ℝ)
    (hq : jsTrim searchQuery ≠ "")
    (hmiss : cacheGet s.cache (cacheKey s.searchType searchQuery) = none) :
    (s.searchType = .semantic → env.embedResp searchQuery = .error m →
      (performSearch env searchQuery s).1.cache = s.cache
      ∧ (performSearch env searchQuery (performSearch env searchQuery s).1).2 =
          (performSearch env searchQuery s).2
      ∧ (performSearch env searchQuery s).2 ≠ [])
    ∧ (s.searchType = .semantic → env.embedResp searchQuery = .ok emb →
        env.corpusResp = .error m →
      (performSearch env searchQuery s).1.cache = s.cache
      ∧ (performSearch env searchQuery (performSearch env searchQuery s).1).2 =
          (performSearch env searchQuery s).2
      ∧ (performSearch env searchQuery s).2 ≠ [])
    ∧ (s.searchType = .keyword → env.keywordResp searchQuery = .error m →
      (performSearch env searchQuery s).1.cache = s.cache
      ∧ (performSearch env searchQuery (performSearch env searchQuery s).1).2 =
          (performSearch env searchQuery s).2
      ∧ (performSearch env searchQuery s).2 ≠ []) := by
  refine ⟨fun hmode he => ?_, fun hmode he hc => ?_, fun hmode hr => ?_⟩
  · have h2 := @performSearch_semanticEmbedFail env searchQuery
      { s with isLoading := false, error := some (errorMessage m) } m hq hmode hmiss he
    rw [performSearch_semanticEmbedFail hq hmode hmiss he, h2]
    exact ⟨rfl, rfl, List.cons_ne_nil _ _⟩
  · have h2 := @performSearch_semanticCorpusFail env searchQuery
      { s with isLoading := false, error := some (errorMessage m) } emb m hq hmode hmiss he hc
    rw [performSearch_semanticCorpusFail hq hmode hmiss he hc, h2]
    exact ⟨rfl, rfl, List.cons_ne_nil _ _⟩
  · have h2 := @performSearch_keywordFail env searchQuery
      { s with isLoading := false, error := some (errorMessage m) } m hq hmode hmiss hr
    rw [performSearch_keywordFail hq hmode hmiss hr, h2]
    exact ⟨rfl, rfl, List.cons_ne_nil _ _⟩

/-- Witness for C10: the failing embedding call leaves the (empty) cache
unchanged and the repeated search issues the same single embed call. -/
theorem failed_search_not_cached_eval :
    (performSearch envFail qAlpha sLastGood).1.cache = sLastGood.cache
    ∧ (performSearch envFail qAlpha (performSearch envFail qAlpha sLastGood).1).2 =
        (performSearch envFail qAlpha sLastGood).2
    ∧ (performSearch envFail qAlpha sLastGood).2 ≠ [] :=
  (failed_search_not_cached envFail qAlpha sLastGood "network down" []
    (by decide) rfl).1 rfl rfl

end SemanticSearch
